/-
  Verification development for the astrochatagent conversation-orchestration
  core (FastAPI + LangGraph application under `app/`).

  The Python sources are shallowly embedded as Lean definitions:

  * `app/models.py`    → `UserProfile`, `PlanetaryPosition`, `KeyPositions`,
                         `PlanetData`, `BhuktiDetails`, `DasaDetails`,
                         `KundaliDetails`, `MetadataFilters`, `RAGQueryOutput`,
                         and the declared field list of `ChatResponse`.
  * `app/state.py`     → `GraphState`.
  * `app/nodes.py`     → `context_rag_query_node`, `retrieval_node`,
                         `chat_node` (LLM calls and the ChromaDB query
                         function are oracles passed as explicit arguments;
                         an `Except Unit` result models a raised exception).
  * `app/builder.py`   → `should_retrieve`, `run_graph_checkpointed`.
  * `app/router/chat_router.py` → `extract_dasha_info`, `chat_handler`,
                         `routerChatResponseKwargs`.

  Python conventions carried over: `None` becomes `Option.none`; truthiness
  of optional strings / lists / dicts is modelled by the `…Truthy` helpers;
  a raised exception is `Except.error ()`; Python dicts with a fixed key set
  are structures whose fields are `Option`-valued (a `none` field is an
  absent key).
-/
import Mathlib

namespace AstroChat

/-! ## Data model (`app/models.py`, `app/state.py`) -/

/-- A LangChain message: `HumanMessage` or `AIMessage` with string content. -/
inductive Message where
  | human (content : String)
  | ai (content : String)
deriving DecidableEq, Repr

def Message.content : Message → String
  | .human c => c
  | .ai c => c

/-- `UserProfile` from `app/models.py` (lines 10–42).  Note the declared
field name is `preffered_language` — exactly as in the source. -/
structure UserProfile where
  name : String
  birth_date : String
  birth_time : String
  birth_place : String
  preffered_language : String
deriving DecidableEq, Repr

/-- Python attribute lookup `profile.<attr>` on a pydantic `UserProfile`:
only the fields declared in `app/models.py` succeed, any other attribute
name raises `AttributeError` (modelled as `Except.error ()`). -/
def UserProfile.getattr (p : UserProfile) (attr : String) : Except Unit String :=
  if attr = "name" then .ok p.name
  else if attr = "birth_date" then .ok p.birth_date
  else if attr = "birth_time" then .ok p.birth_time
  else if attr = "birth_place" then .ok p.birth_place
  else if attr = "preffered_language" then .ok p.preffered_language
  else .error ()

/-- `PlanetaryPosition` (`app/models.py`): only the fields the embedded
control flow reads are kept; the remaining chart fields do not influence
any embedded function. -/
structure PlanetaryPosition where
  sign : Option String
  nakshatra : Option String
  nakshatra_lord : Option String
deriving DecidableEq, Repr

/-- `KeyPositions` (`app/models.py`). -/
structure KeyPositions where
  sun : PlanetaryPosition
  moon : PlanetaryPosition
  ascendant : PlanetaryPosition
  lagna_lord : Option String
deriving DecidableEq, Repr

/-- `PlanetData` (`app/models.py`): the fields read by the nodes. -/
structure PlanetData where
  object : String
  rasi : String
  house_nr : Option Nat
  nakshatra : Option String
  is_retrograde : Option Bool
deriving DecidableEq, Repr

/-- `BhuktiDetails` (`app/models.py`): sub-period boundary dates as raw
strings. -/
structure BhuktiDetails where
  start : String
  stop : String
deriving DecidableEq, Repr

/-- `DasaDetails` (`app/models.py`): major-period boundary dates plus the
ordered bhukti dict (Python dicts preserve insertion order, so the dict is
an association list). The source field `end` is a Lean keyword and is
rendered `stop`. -/
structure DasaDetails where
  start : String
  stop : String
  bhuktis : List (String × BhuktiDetails)
deriving DecidableEq, Repr

/-- `KundaliDetails` (`app/models.py`): the slice of the chart the
orchestration core reads.  Birth metadata, houses, aspects and the
consolidated chart are never branched on by the embedded functions. -/
structure KundaliDetails where
  user_name : String
  key_positions : KeyPositions
  planets : List PlanetData
  vimshottari_dasa : List (String × DasaDetails)
deriving DecidableEq, Repr

/-- `MetadataFilters` (`app/models.py`): the candidate filter produced by
the structured-output LLM call.  All categories are optional lists. -/
structure MetadataFilters where
  zodiacs : Option (List String)
  planetary_factors : Option (List String)
  life_areas : Option (List String)
  nakshtra : Option (List String)
deriving DecidableEq, Repr

/-- `RAGQueryOutput` (`app/models.py`): the structured extraction result. -/
structure RAGQueryOutput where
  needs_rag : Bool
  metadata_filters : Option MetadataFilters
  rag_query : Option String
  reasoning : Option String
deriving DecidableEq, Repr

/-- The `metadata_filters_dict` built by `context_rag_query_node`
(`app/nodes.py` lines 194–223): a Python dict whose possible keys are the
four categories; a `none` field is an absent key. -/
structure FilterDict where
  zodiacs : Option (List String)
  planetary_factors : Option (List String)
  life_areas : Option (List String)
  nakshtra : Option (List String)
deriving DecidableEq, Repr

/-- Per-document metadata returned by ChromaDB: each indexed document
carries at most one populated category, the values are plain strings. -/
structure DocMetadata where
  zodiacs : Option String
  planetary_factors : Option String
  life_areas : Option String
  nakshtra : Option String
deriving DecidableEq, Repr

/-- One entry of `state["rag_results"]`: `{"content": …, "metadata": …}`. -/
structure RagDoc where
  content : String
  metadata : DocMetadata
deriving DecidableEq, Repr

/-- `GraphState` from `app/state.py`. -/
structure GraphState where
  messages : List Message
  user_profile : Option UserProfile
  kundali_details : Option KundaliDetails
  session_id : String
  rag_context_keys : List String
  rag_query : Option String
  rag_results : List RagDoc
  needs_rag : Bool
  metadata_filters : Option FilterDict
deriving DecidableEq, Repr

/-! ## Python truthiness helpers -/

/-- Python truthiness of an optional string (`None` and `""` are falsy). -/
def optStrTruthy : Option String → Bool
  | some s => s ≠ ""
  | none => false

/-- Python truthiness of an optional list (`None` and `[]` are falsy). -/
def optListTruthy : Option (List String) → Bool
  | some (_ :: _) => true
  | _ => false

/-- `x or "Unknown"` on an optional sign string (`app/nodes.py` lines
52–54): both `None` and the empty string fall back to `"Unknown"`. -/
def orUnknown : Option String → String
  | some s => if s = "" then "Unknown" else s
  | none => "Unknown"

/-- Python truthiness of a `metadata_filters` state entry: `None` is falsy
and so is an empty dict (a dict with no keys). -/
def filterDictTruthy : Option FilterDict → Bool
  | none => false
  | some fd =>
      fd.zodiacs.isSome || fd.planetary_factors.isSome ||
      fd.life_areas.isSome || fd.nakshtra.isSome

/-! ## Retrieval planner (`context_rag_query_node`, `app/nodes.py` 18–236)

The prompt assembly (chart summary, previous-context hint) only feeds the
opaque structured-extraction call, so it is not re-built here; the call
itself is the oracle argument `extract` (`Except.error ()` models the call
raising, including a malformed / non-coercible structured output).  The
returned `Bool` records whether the extraction oracle was consulted, so
that short-circuit behaviour is observable. -/

/-- Shorthand for the states the planner returns on its guard and error
paths: `needs_rag=False`, no query, no context keys, no filter
(`app/nodes.py` lines 43–49 and 229–234). -/
def plannerSafeDefault (state : GraphState) : GraphState :=
  { state with
      needs_rag := false
      rag_query := none
      rag_context_keys := []
      metadata_filters := none }

/-- The zodiac-validation branch of `context_rag_query_node`
(`app/nodes.py` lines 199–208): keep only the candidate zodiacs appearing
in `native_zodiacs`; when nothing survives neither keys nor a dict entry
are produced. Returns the `(context_keys, dict_entry)` contribution. -/
def validZodiacs (native_zodiacs : List String) (candidates : Option (List String)) :
    List String :=
  (candidates.getD []).filter (fun z => native_zodiacs.contains z)

def zodiacFilterResult (native_zodiacs : List String)
    (candidates : Option (List String)) : List String × Option (List String) :=
  if optListTruthy candidates then
    if validZodiacs native_zodiacs candidates ≠ [] then
      ((validZodiacs native_zodiacs candidates).map (fun z => "zodiacs:" ++ z),
       some (validZodiacs native_zodiacs candidates))
    else ([], none)
  else ([], none)

/-- A pass-through category of `context_rag_query_node` (`app/nodes.py`
lines 210–220): a truthy list contributes its `category:value` keys and a
dict entry, unchanged. -/
def categoryResult (category : String) (values : Option (List String)) :
    List String × Option (List String) :=
  if optListTruthy values then
    ((values.getD []).map (fun v => category ++ ":" ++ v), some (values.getD []))
  else ([], none)

/-- The zodiac-validation and key-extraction block of
`context_rag_query_node` (`app/nodes.py` lines 193–223), given the native
signs already defaulted with `or "Unknown"`. Returns the
`(context_keys, metadata_filters_dict)` pair. -/
def processFilters (sun_sign moon_sign ascendant_sign : String) :
    Option MetadataFilters → (List String × Option FilterDict)
  | none => ([], none)
  | some mf =>
      let native_zodiacs : List String := [sun_sign, moon_sign, ascendant_sign]
      let z := zodiacFilterResult native_zodiacs mf.zodiacs
      let p := categoryResult "planetary_factors" mf.planetary_factors
      let l := categoryResult "life_areas" mf.life_areas
      let n := categoryResult "nakshtra" mf.nakshtra
      (z.1 ++ p.1 ++ l.1 ++ n.1,
       some { zodiacs := z.2, planetary_factors := p.2,
              life_areas := l.2, nakshtra := n.2 })

/-- `context_rag_query_node` (`app/nodes.py` lines 18–236).  The second
component of the result records whether the structured-extraction call was
made. -/
def context_rag_query_node (state : GraphState)
    (extract : Except Unit RAGQueryOutput) : GraphState × Bool :=
  match state.kundali_details, state.user_profile with
  | some kd, some _profile =>
      let sun_sign := orUnknown kd.key_positions.sun.sign
      let moon_sign := orUnknown kd.key_positions.moon.sign
      let ascendant_sign := orUnknown kd.key_positions.ascendant.sign
      match extract with
      | .error _ => (plannerSafeDefault state, true)
      | .ok result =>
          let (context_keys, metadata_filters_dict) :=
            processFilters sun_sign moon_sign ascendant_sign result.metadata_filters
          ({ state with
               needs_rag := result.needs_rag
               rag_query := result.rag_query
               rag_context_keys := context_keys
               metadata_filters := metadata_filters_dict }, true)
  | _, _ =>
      -- `if not kundali_details or not user_profile:` — skip RAG entirely
      (plannerSafeDefault state, false)

/-! ## Retriever (`retrieval_node`, `app/nodes.py` 239–357) -/

/-- A ChromaDB `where` expression as the node builds it: either a single
`{category: {"$in": values}}` condition, or an `$or` / `$and` of such
conditions (`$and` exists in the query language but is never produced by
the node — that is one of the verified facts). -/
inductive WhereExpr where
  | inCond (category : String) (values : List String)
  | orExpr (conds : List (String × List String))
  | andExpr (conds : List (String × List String))
deriving DecidableEq, Repr

/-- Look up one of the four metadata categories of a document. -/
def DocMetadata.field (m : DocMetadata) (category : String) : Option String :=
  if category = "zodiacs" then m.zodiacs
  else if category = "planetary_factors" then m.planetary_factors
  else if category = "life_areas" then m.life_areas
  else if category = "nakshtra" then m.nakshtra
  else none

/-- Semantics of a single `$in` condition on a document's metadata. -/
def inCondHolds (m : DocMetadata) (c : String × List String) : Bool :=
  match m.field c.1 with
  | some v => c.2.contains v
  | none => false

/-- Satisfaction of a `where` expression by a document's metadata:
`$or` means at least one condition holds, `$and` means all do. -/
def WhereExpr.satisfiedBy (m : DocMetadata) : WhereExpr → Bool
  | .inCond cat vals => inCondHolds m (cat, vals)
  | .orExpr cs => cs.any (inCondHolds m)
  | .andExpr cs => cs.all (inCondHolds m)

/-- The `where_clause` construction of `retrieval_node` (`app/nodes.py`
lines 280–298): append one `$in` condition per truthy category in the
fixed order zodiacs, planetary_factors, life_areas, nakshtra; a single
condition is used directly, two or more are wrapped in `$or`, none yields
no clause. -/
def buildConditions (metadata_filters : Option FilterDict) : List (String × List String) :=
  if filterDictTruthy metadata_filters then
    let fd := metadata_filters.getD ⟨none, none, none, none⟩
    (if optListTruthy fd.zodiacs then [("zodiacs", fd.zodiacs.getD [])] else []) ++
    (if optListTruthy fd.planetary_factors then
      [("planetary_factors", fd.planetary_factors.getD [])] else []) ++
    (if optListTruthy fd.life_areas then [("life_areas", fd.life_areas.getD [])] else []) ++
    (if optListTruthy fd.nakshtra then [("nakshtra", fd.nakshtra.getD [])] else [])
  else []

def buildWhereClause (metadata_filters : Option FilterDict) : Option WhereExpr :=
  match buildConditions metadata_filters with
  | [] => none
  | [c] => some (.inCond c.1 c.2)
  | cs => some (.orExpr cs)

/-- The raw ChromaDB query result dict: `documents` and `metadatas` are
lists of lists (one inner list per query); a `none` field is an absent
key. -/
structure ChromaRaw where
  documents : Option (List (List String))
  metadatas : Option (List (List DocMetadata))

/-- The injected `query_function(query_text, n_results, where)`; a raised
exception (e.g. the index being unavailable) is `Except.error ()`. -/
def QueryFn : Type :=
  String → Nat → Option WhereExpr → Except Unit ChromaRaw

/-- Context keys recomputed from one returned document's metadata
(`app/nodes.py` lines 333–341); a key is emitted per truthy category. -/
def DocMetadata.contextKeys (m : DocMetadata) : List String :=
  (if optStrTruthy m.zodiacs then ["zodiacs:" ++ m.zodiacs.getD ""] else []) ++
  (if optStrTruthy m.planetary_factors then
    ["planetary_factors:" ++ m.planetary_factors.getD ""] else []) ++
  (if optStrTruthy m.life_areas then ["life_areas:" ++ m.life_areas.getD ""] else []) ++
  (if optStrTruthy m.nakshtra then ["nakshtra:" ++ m.nakshtra.getD ""] else [])

/-- The document/metadata pairing loop of `retrieval_node` (`app/nodes.py`
lines 323–341): each document is paired with `metadata_list[i]` when it
exists and `{}` otherwise. -/
def pairDocs (documents : List String) (metadata_list : List DocMetadata) : List RagDoc :=
  documents.enum.map (fun p =>
    { content := p.2, metadata := metadata_list.getD p.1 ⟨none, none, none, none⟩ })

/-- `retrieval_node` (`app/nodes.py` lines 239–357).  `queryFn?` is the
`query_function` found in the run config (`none` when absent).  Python's
`list(set(context_keys))` has unspecified order; it is modelled by
`List.eraseDups` (first-occurrence order) — no verified claim depends on
the order.  The function is total: an index exception is caught and only
`rag_results` is reset (`app/nodes.py` lines 353–355). -/
def retrieval_node (state : GraphState) (queryFn? : Option QueryFn) : GraphState :=
  if ¬ (state.needs_rag && optStrTruthy state.rag_query) then
    { state with rag_results := [] }
  else
    match queryFn? with
    | none => { state with rag_results := [] }
    | some query_function =>
        let where_clause := buildWhereClause state.metadata_filters
        let rag_query := state.rag_query.getD ""
        match query_function rag_query 5 where_clause with
        | .error _ => { state with rag_results := [] }
        | .ok results =>
            -- `if results and "documents" in results and results["documents"]:`
            match results.documents with
            | some (documents :: _) =>
                let metadata_list : List DocMetadata :=
                  match results.metadatas with
                  | some (m :: _) => m
                  | _ => []
                let rag_results := pairDocs documents metadata_list
                let context_keys := (rag_results.map (fun r => r.metadata.contextKeys)).flatten
                { state with
                    rag_results := rag_results.take 5
                    rag_context_keys := context_keys.eraseDups }
            | _ =>
                { state with rag_results := [], rag_context_keys := [] }

/-! ## Response composer (`chat_node`, `app/nodes.py` 360–713)

The prompt assembly (kundali summary, rag context, few-shot examples) only
feeds the opaque generation call, which is the oracle argument `generate`.
The language lookup `user_profile.preferred_language` happens **before**
the `try` block guarding the generation call, and is a genuine pydantic
attribute access on `UserProfile` — which declares `preffered_language`.
-/

/-- The fixed Hindi fallback apology (`app/nodes.py` line 710). -/
def hindiFallback : String :=
  "मुझे क्षमा करें, मैं आपकी क्वेरी को संसाधित करने में असमर्थ था।"

/-- The fixed English fallback apology (`app/nodes.py` line 710). -/
def englishFallback : String := "I apologize, I was unable to process your query."

/-- `chat_node` (`app/nodes.py` lines 360–713).  A `.error` result models
an exception escaping the node (the graph invocation then fails). -/
def chat_node (state : GraphState) (generate : Except Unit String) :
    Except Unit GraphState :=
  -- `preferred_language = user_profile.preferred_language if user_profile else "en"`
  let language : Except Unit String :=
    match state.user_profile with
    | some user_profile => user_profile.getattr "preferred_language"
    | none => .ok "en"
  match language with
  | .error e => .error e
  | .ok preferred_language =>
      match generate with
      | .ok content =>
          .ok { state with messages := state.messages ++ [.ai content] }
      | .error _ =>
          let fallback_msg :=
            if preferred_language = "hi" then hindiFallback else englishFallback
          .ok { state with messages := state.messages ++ [.ai fallback_msg] }

/-! ## Graph wiring (`app/builder.py`) -/

/-- `should_retrieve` (`app/builder.py` lines 14–23). -/
def should_retrieve (state : GraphState) : String :=
  if state.needs_rag then "retrieve" else "chat"

/-- One graph run with LangGraph checkpointing, as compiled by
`app/builder.py` (entry `context_query`, conditional edge to `retrieve` or
`chat`, then `chat`, then END).

Modelled from the spec: LangGraph's `MemorySaver` checkpointer persists the
channel values after each completed node keyed by the thread id (spec §4.1
SessionStore, §4.5 PERSIST; `app/router/chat_router.py` comments lines
59–63 and 144–148).  The second component is the state that ends up
persisted: the final state on success, or the state after the last
completed node when `chat_node` raises. -/
def run_graph_checkpointed (state : GraphState)
    (extract : Except Unit RAGQueryOutput) (queryFn? : Option QueryFn)
    (generate : Except Unit String) : Except Unit GraphState × GraphState :=
  let s1 := (context_rag_query_node state extract).1
  let s2 := if should_retrieve s1 = "retrieve" then retrieval_node s1 queryFn? else s1
  match chat_node s2 generate with
  | .ok sf => (.ok sf, sf)
  | .error e => (.error e, s2)

/-! ## Dasha-date parsing and current-period extraction
(`app/router/chat_router.py` lines 188–256; the same helper and loops
appear in `chat_node`, `app/nodes.py` lines 426–479) -/

/-- A calendar date as `datetime.date` carries it. -/
structure Date where
  year : Nat
  month : Nat
  day : Nat
deriving DecidableEq, Repr

/-- Encode a date so that `Nat` order is chronological order. -/
def Date.key (d : Date) : Nat := d.year * 10000 + d.month * 100 + d.day

/-- Gregorian leap-year rule, as `datetime` validates day-of-month. -/
def isLeap (y : Nat) : Bool := (y % 4 = 0 && y % 100 ≠ 0) || y % 400 = 0

/-- Days in a month, as `datetime` validates day-of-month. -/
def daysInMonth (y m : Nat) : Nat :=
  if m = 2 then (if isLeap y then 29 else 28)
  else if m = 4 || m = 6 || m = 9 || m = 11 then 30
  else 31

/-- A nonempty all-digit character group. -/
def digitGroup (cs : List Char) : Bool := ¬ cs.isEmpty && cs.all Char.isDigit

/-- Numeric value of a digit group. -/
def natOfDigits (cs : List Char) : Nat :=
  cs.foldl (fun n c => n * 10 + (c.toNat - 48)) 0

/-- Split a character list on `'-'` (the literal separators of the two
`strptime` patterns). -/
def splitDash : List Char → List (List Char)
  | [] => [[]]
  | c :: rest =>
      let groups := splitDash rest
      if c = '-' then [] :: groups
      else
        match groups with
        | g :: gs => (c :: g) :: gs
        | [] => [[c]]

/-- `datetime.strptime(s, "%d-%m-%Y").date()`: `%d` is one or two digits
valued 1–31, `%m` one or two digits valued 1–12, `%Y` exactly four digits;
`datetime` additionally requires year ≥ 1 and the day to exist in the
month.  Any mismatch or leftover input raises `ValueError` (`.error ()`). -/
def parseDMY (s : String) : Except Unit Date :=
  match splitDash s.data with
  | [d, m, y] =>
      if digitGroup d ∧ d.length ≤ 2 ∧ digitGroup m ∧ m.length ≤ 2 ∧
         digitGroup y ∧ y.length = 4 then
        let dv := natOfDigits d
        let mv := natOfDigits m
        let yv := natOfDigits y
        if 1 ≤ dv ∧ dv ≤ 31 ∧ 1 ≤ mv ∧ mv ≤ 12 ∧ 1 ≤ yv ∧ dv ≤ daysInMonth yv mv then
          .ok ⟨yv, mv, dv⟩
        else .error ()
      else .error ()
  | _ => .error ()

/-- `datetime.strptime(s, "%Y-%m-%d").date()`, same component rules. -/
def parseYMD (s : String) : Except Unit Date :=
  match splitDash s.data with
  | [y, m, d] =>
      if digitGroup y ∧ y.length = 4 ∧ digitGroup m ∧ m.length ≤ 2 ∧
         digitGroup d ∧ d.length ≤ 2 then
        let yv := natOfDigits y
        let mv := natOfDigits m
        let dv := natOfDigits d
        if 1 ≤ yv ∧ 1 ≤ mv ∧ mv ≤ 12 ∧ 1 ≤ dv ∧ dv ≤ 31 ∧ dv ≤ daysInMonth yv mv then
          .ok ⟨yv, mv, dv⟩
        else .error ()
      else .error ()
  | _ => .error ()

/-- `parse_dasha_date` (`app/router/chat_router.py` lines 193–202, and
identically `app/nodes.py` lines 430–439): try `DD-MM-YYYY` first, fall
back to `YYYY-MM-DD`, raise if both fail. -/
def parse_dasha_date (s : String) : Except Unit Date :=
  match parseDMY s with
  | .ok d => .ok d
  | .error _ => parseYMD s

/-- One iteration guard of the dasa/bhukti loops: both boundary dates
parse and `start <= today <= end` (a period whose dates raise is skipped
by the `continue`). -/
def periodContains (today : Date) (start stop : String) : Bool :=
  match parse_dasha_date start, parse_dasha_date stop with
  | .ok s, .ok e => decide (s.key ≤ today.key) && decide (today.key ≤ e.key)
  | _, _ => false

/-- The formatting of a found current dasa (`app/router/chat_router.py`
lines 226–252): the raw boundary strings, plus the first bhukti containing
today when one exists. -/
def formatCurrentDasa (today : Date) (dasa_name : String) (dasa_data : DasaDetails) :
    String :=
  let dasa_str := dasa_name ++ " (" ++ dasa_data.start ++ " to " ++ dasa_data.stop ++ ")"
  match dasa_data.bhuktis.find? (fun b => periodContains today b.2.start b.2.stop) with
  | none => dasa_str
  | some (bhukti_name, bhukti_data) =>
      dasa_str ++ " - Current Bhukti: " ++ bhukti_name ++ " (" ++
        bhukti_data.start ++ " to " ++ bhukti_data.stop ++ ")"

/-- The `dasha_info` computation of the chat endpoint
(`app/router/chat_router.py` lines 188–256): scan the dasa dict in
insertion order (no sorting), break at the first period containing today;
report `"Not available"` when the dict is empty or no period qualifies. -/
def extract_dasha_info (vimshottari_dasa : List (String × DasaDetails))
    (today : Date) : String :=
  match vimshottari_dasa.find? (fun p => periodContains today p.2.start p.2.stop) with
  | none => "Not available"
  | some (dasa_name, dasa_data) => formatCurrentDasa today dasa_name dasa_data

/-! ## Chat endpoint (`app/router/chat_router.py`)

The LangGraph `MemorySaver` is the SessionStore collaborator: an
association list from thread id to the persisted channel values, most
recent binding first. -/

/-- `ChatRequest` (`app/models.py` lines 45–51). -/
structure ChatRequest where
  session_id : String
  message : String
  user_profile : UserProfile
deriving DecidableEq, Repr

/-- The checkpoint store of `MemorySaver`, keyed by thread id. -/
def CheckpointStore : Type := List (String × GraphState)

/-- `checkpoint_memory.aget({"thread_id": …})["channel_values"]` — most
recent persisted state for the thread, if any. -/
def CheckpointStore.aget (store : CheckpointStore) (thread_id : String) :
    Option GraphState :=
  List.lookup thread_id store

/-- Persist channel values for a thread (newest binding shadows older
ones). -/
def CheckpointStore.put (store : CheckpointStore) (thread_id : String)
    (state : GraphState) : CheckpointStore :=
  (thread_id, state) :: store

/-- Outcome of one call of the `chat` endpoint's orchestration part
(`app/router/chat_router.py` lines 98–176): the graph result, the updated
checkpoint store, whether `fetch_kundali_details` was invoked, and the
chart used for the turn. -/
structure TurnOutcome where
  result : Except Unit GraphState
  store : CheckpointStore
  fetched : Bool
  chart : KundaliDetails

/-- The session-resolution / chart-caching / graph-invocation part of the
`chat` endpoint (`app/router/chat_router.py` lines 98–176):

1. look the thread id up in the checkpointer and reuse
   `channel_values["kundali_details"]` when present (lines 114–131);
2. otherwise invoke `fetch_kundali_details` — the `fetchChart` oracle,
   here a successfully computed chart (lines 134–142);
3. build the initial state with the new user message (lines 149–159);
4. invoke the compiled graph with the thread id (lines 161–176).

Modelled from the spec: the LangGraph invocation merges the input with the
thread's stored channel values (`messages` is an `add_messages` channel and
appends; every other channel takes the new value) and persists the
resulting channel values keyed by the thread id (spec §4.1, §4.5;
`chat_router.py` comments lines 59–63 and 144–148). -/
def chat_handler (store : CheckpointStore) (req : ChatRequest)
    (fetchChart : KundaliDetails) (extract : Except Unit RAGQueryOutput)
    (queryFn? : Option QueryFn) (generate : Except Unit String) : TurnOutcome :=
  let checkpointed := store.aget req.session_id
  let existing : Option KundaliDetails := checkpointed.bind (fun cv => cv.kundali_details)
  -- `kundali_details` stays `None` unless found; the fetch fills it in
  let kundali_details := existing.getD fetchChart
  let fetched := existing.isNone
  let initial_state : GraphState :=
    { messages := [.human req.message]
      user_profile := some req.user_profile
      kundali_details := some kundali_details
      session_id := req.session_id
      rag_context_keys := []
      rag_query := none
      rag_results := []
      needs_rag := false
      metadata_filters := none }
  let merged : GraphState :=
    match checkpointed with
    | some prev => { initial_state with messages := prev.messages ++ initial_state.messages }
    | none => initial_state
  let gr := run_graph_checkpointed merged extract queryFn? generate
  { result := gr.1
    store := store.put req.session_id gr.2
    fetched := fetched
    chart := kundali_details }

/-! ## `ChatResponse` construction (`app/router/chat_router.py` 258–265
against `app/models.py` 56–62) -/

/-- The field names `app/models.py` (lines 56–62) declares for
`ChatResponse`; all three are required (`Field(...)`). -/
def chatResponseDeclaredFields : List String :=
  ["response", "context_used", "zodiac_sign"]

/-- The keyword arguments the chat endpoint passes to `ChatResponse(...)`
(`app/router/chat_router.py` lines 258–265). -/
def routerChatResponseKwargs : List String :=
  ["response", "context_used", "sun_sign", "moon_sign", "ascendant_sign", "dasha_info"]

/-- The record shape the spec (§6 `handle_turn`) and the repository's own
tests (`tests/app/test_models.py::TestChatResponse`) expect `ChatResponse`
to declare. -/
def specChatResponseFields : List String :=
  ["response", "context_used", "sun_sign", "moon_sign", "ascendant_sign", "dasha_info"]

/-- Required fields a pydantic model would report missing when constructed
with the given keyword arguments (pydantic v2 ignores extra keywords by
default and raises `ValidationError` when this list is nonempty). -/
def pydanticMissingRequired (required provided : List String) : List String :=
  required.filter (fun f => ¬ provided.contains f)

/-! ## Specification-side characterisations

These definitions follow the spec's wording (not the code) and are related
to the embedded code by the theorems below. -/

/-- The non-empty categories of a metadata filter, written independently of
`buildConditions`: per spec §4.3 "each non-empty filter category becomes a
'value is one of {...}' condition". -/
def nonemptyCategories (metadata_filters : Option FilterDict) :
    List (String × List String) :=
  match metadata_filters with
  | none => []
  | some fd =>
      [("zodiacs", fd.zodiacs), ("planetary_factors", fd.planetary_factors),
       ("life_areas", fd.life_areas), ("nakshtra", fd.nakshtra)].filterMap
        (fun c => match c.2 with
          | some (v :: vs) => some (c.1, v :: vs)
          | _ => none)

/-! ## Concrete sample data (used by witnesses and counterexamples) -/

/-- A valid user profile (birth data as the repository's own test fixtures
use, `tests/conftest.py`). -/
def sampleProfile : UserProfile :=
  { name := "Test User", birth_date := "1990-01-15", birth_time := "10:30",
    birth_place := "New Delhi, India", preffered_language := "en" }

/-- The same profile requesting Hindi. -/
def hindiProfile : UserProfile := { sampleProfile with preffered_language := "hi" }

/-- A chart with Sun = Capricorn, Moon = Leo, Ascendant = Aries (the
fixture constellation of `tests/conftest.py` and spec Scenario A/B). -/
def sampleKundali : KundaliDetails :=
  { user_name := "Test User"
    key_positions :=
      { sun := ⟨some "Capricorn", some "Uttara Ashadha", some "Sun"⟩
        moon := ⟨some "Leo", some "Magha", some "Ketu"⟩
        ascendant := ⟨some "Aries", some "Ashwini", some "Ketu"⟩
        lagna_lord := some "Mars" }
    planets := [⟨"Sun", "Capricorn", some 10, some "Uttara Ashadha", some false⟩]
    vimshottari_dasa := [] }

/-- A second, different chart (to show the second turn does not recompute). -/
def otherKundali : KundaliDetails :=
  { sampleKundali with
      user_name := "Other User"
      key_positions :=
        { sun := ⟨some "Taurus", none, none⟩
          moon := ⟨some "Virgo", none, none⟩
          ascendant := ⟨some "Gemini", none, none⟩
          lagna_lord := some "Mercury" } }

/-- A fully initialised turn state with chart and profile present. -/
def sampleState : GraphState :=
  { messages := [.human "What does my chart say about my career?"]
    user_profile := some sampleProfile
    kundali_details := some sampleKundali
    session_id := "s1"
    rag_context_keys := []
    rag_query := none
    rag_results := []
    needs_rag := false
    metadata_filters := none }

/-- A state whose chart is missing. -/
def stateNoChart : GraphState := { sampleState with kundali_details := none }

/-- A state as the planner leaves it when it decided to retrieve with a
zodiac filter: non-empty planner-derived context keys. -/
def stateAfterPlanner : GraphState :=
  { sampleState with
      needs_rag := true
      rag_query := some "Capricorn career guidance"
      rag_context_keys := ["zodiacs:Capricorn"]
      metadata_filters := some ⟨some ["Capricorn"], none, none, none⟩ }

/-- An index query function that always raises (spec Scenario D's
`ConnectionError`). -/
def failingQueryFn : QueryFn := fun _ _ _ => .error ()

/-- An extraction output violating the `RetrievalDecision` shape invariant:
`needs_rag=False` yet query and filter populated (pydantic accepts this —
all of `RAGQueryOutput`'s optional fields are independent). -/
def badShapeOutput : RAGQueryOutput :=
  { needs_rag := false
    metadata_filters := some ⟨none, none, some ["career"], none⟩
    rag_query := some "Leo career guidance"
    reasoning := none }

/-- A well-shaped no-retrieval extraction output. -/
def noRagOutput : RAGQueryOutput :=
  { needs_rag := false, metadata_filters := none, rag_query := none,
    reasoning := some "General question, no RAG needed" }

/-- Spec Scenario B: the extraction step proposes `zodiacs=["Scorpio","Leo"]`
for the Capricorn/Leo/Aries native — `"Scorpio"` must be dropped. -/
def scorpioOutput : RAGQueryOutput :=
  { needs_rag := true
    metadata_filters := some ⟨some ["Scorpio", "Leo"], none, none, none⟩
    rag_query := some "Leo moon sign emotional characteristics"
    reasoning := none }

/-- Spec Scenario C: two populated filter categories. -/
def scenarioCFilter : Option FilterDict :=
  some ⟨none, some ["Sun"], some ["career"], none⟩

/-- A dasa timeline: a first period that does not contain the sample date,
then the Ketu period of spec Scenario E which does. -/
def sampleDasaTimeline : List (String × DasaDetails) :=
  [("Mercury", ⟨"01-01-2000", "01-01-2017", []⟩),
   ("Ketu", ⟨"01-01-2020", "01-01-2027",
     [("Ketu-Ketu", ⟨"01-01-2020", "01-06-2020"⟩),
      ("Ketu-Venus", ⟨"01-06-2020", "01-08-2021"⟩)]⟩)]

/-- A concrete "today" inside the Ketu period and its first bhukti. -/
def sampleToday : Date := ⟨2020, 3, 15⟩

/-- A chat request for session `"s1"`. -/
def sampleRequest : ChatRequest :=
  { session_id := "s1", message := "What is my sun sign?",
    user_profile := sampleProfile }

/-- A second request in the same session. -/
def sampleRequest2 : ChatRequest :=
  { session_id := "s1", message := "Tell me more about my moon sign",
    user_profile := sampleProfile }

/-! # Theorems -/

/-! ## Shared helper lemmas -/

/-- A loop that breaks at the first match returns the marked element when
everything before it fails the test. -/
theorem find?_of_prefix_failures {α : Type} (p : α → Bool) (pre post : List α)
    (x : α) (h1 : ∀ y ∈ pre, p y = false) (h2 : p x = true) :
    (pre ++ x :: post).find? p = some x := by
  induction pre with
  | nil => simp [List.find?_cons, h2]
  | cons a as ih =>
      have ha : p a = false := h1 a (List.mem_cons_self a as)
      simp only [List.cons_append, List.find?_cons, ha]
      exact ih (fun y hy => h1 y (List.mem_cons_of_mem a hy))

/-- Python attribute access `user_profile.preferred_language` on the
declared `UserProfile` raises `AttributeError`: the model declares
`preffered_language` (`app/models.py` line 18). -/
theorem getattr_preferred_language (p : UserProfile) :
    p.getattr "preferred_language" = .error () := rfl

/-- The planner never touches the chart stored in the state. -/
theorem planner_preserves_kundali (state : GraphState)
    (extract : Except Unit RAGQueryOutput) :
    ((context_rag_query_node state extract).1).kundali_details =
      state.kundali_details := by
  unfold context_rag_query_node
  cases hk : state.kundali_details <;> cases hp : state.user_profile <;>
    cases extract <;> simp_all [plannerSafeDefault]

/-- The retriever never touches the chart stored in the state. -/
theorem retrieval_preserves_kundali (state : GraphState)
    (queryFn? : Option QueryFn) :
    (retrieval_node state queryFn?).kundali_details = state.kundali_details := by
  unfold retrieval_node
  split
  · rfl
  · cases queryFn? with
    | none => rfl
    | some qf =>
        simp only
        split
        · rfl
        · split
          · rfl
          · rfl

/-- Whenever `chat_node` completes it only appends a message. -/
theorem chat_node_ok_preserves_kundali (state : GraphState)
    (generate : Except Unit String) (final : GraphState)
    (h : chat_node state generate = .ok final) :
    final.kundali_details = state.kundali_details := by
  unfold chat_node at h
  cases hp : state.user_profile with
  | some up =>
      rw [hp] at h
      simp only [getattr_preferred_language] at h
      exact absurd h (by simp)
  | none =>
      rw [hp] at h
      simp only at h
      cases generate with
      | ok content =>
          simp only [Except.ok.injEq] at h
          subst h; rfl
      | error e =>
          simp only [Except.ok.injEq] at h
          subst h; rfl

/-- The persisted state of a graph run keeps the chart it was invoked
with. -/
theorem run_graph_preserves_kundali (state : GraphState)
    (extract : Except Unit RAGQueryOutput) (queryFn? : Option QueryFn)
    (generate : Except Unit String) :
    (run_graph_checkpointed state extract queryFn? generate).2.kundali_details =
      state.kundali_details := by
  unfold run_graph_checkpointed
  set s1 := (context_rag_query_node state extract).1 with hs1
  set s2 := if should_retrieve s1 = "retrieve" then retrieval_node s1 queryFn? else s1
    with hs2
  have h2 : s2.kundali_details = state.kundali_details := by
    rw [hs2]
    split
    · rw [retrieval_preserves_kundali, hs1, planner_preserves_kundali]
    · rw [hs1, planner_preserves_kundali]
  cases hc : chat_node s2 generate with
  | ok sf => simpa [hc, chat_node_ok_preserves_kundali s2 generate sf hc] using h2
  | error e => simpa [hc] using h2

/-! ## C5 — planner safe default on extraction failure -/

/-- C5: whatever the input state, if the structured-extraction step of the
planner raises (or its output cannot be coerced, which surfaces as the same
exception), `context_rag_query_node` returns the state with
`needs_rag=False`, no query, no filter and empty context keys; the embedded
function is total, i.e. nothing escapes the node's boundary. -/
theorem planner_safe_default_on_failure (state : GraphState) :
    (context_rag_query_node state (.error ())).1.needs_rag = false ∧
    (context_rag_query_node state (.error ())).1.rag_query = none ∧
    (context_rag_query_node state (.error ())).1.rag_context_keys = [] ∧
    (context_rag_query_node state (.error ())).1.metadata_filters = none := by
  unfold context_rag_query_node
  cases state.kundali_details <;> cases state.user_profile <;>
    simp [plannerSafeDefault]

/-! ## C10 — planner short-circuits when chart or profile is missing -/

/-- C10: if the chart **or** the user profile is missing from the state,
the planner returns the safe default without consulting the extraction
model (the `Bool` component records whether the extraction oracle was
invoked). -/
theorem planner_short_circuit_without_extraction (state : GraphState)
    (extract : Except Unit RAGQueryOutput)
    (h : state.kundali_details = none ∨ state.user_profile = none) :
    context_rag_query_node state extract =
      ({ state with
           needs_rag := false
           rag_query := none
           rag_context_keys := []
           metadata_filters := none }, false) := by
  unfold context_rag_query_node
  cases hk : state.kundali_details <;> cases hp : state.user_profile <;>
    simp_all [plannerSafeDefault]

/-- C10 witness: a concrete state with a profile but no chart short-circuits
and reports the extraction model as not invoked. -/
theorem planner_short_circuit_without_extraction_witness :
    stateNoChart.kundali_details = none ∧
    context_rag_query_node stateNoChart (.ok scorpioOutput) =
      ({ stateNoChart with
           needs_rag := false
           rag_query := none
           rag_context_keys := []
           metadata_filters := none }, false) :=
  ⟨rfl, planner_short_circuit_without_extraction stateNoChart (.ok scorpioOutput)
    (Or.inl rfl)⟩

/-! ## C4 — `RetrievalDecision` shape invariant -/

/-- C4 counterexample: the planner copies `needs_rag` and `rag_query` from
the extraction output verbatim and keeps every non-empty filter category,
so an extraction output with `needs_rag=False` but a populated query and
filter yields a planner state with `needs_rag=False` **and** a present
query and filter — the claimed shape invariant does not hold as stated. -/
theorem planner_decision_shape_counterexample :
    (context_rag_query_node sampleState (.ok badShapeOutput)).1.needs_rag = false ∧
    (context_rag_query_node sampleState (.ok badShapeOutput)).1.rag_query =
      some "Leo career guidance" ∧
    (context_rag_query_node sampleState (.ok badShapeOutput)).1.metadata_filters =
      some ⟨none, none, some ["career"], none⟩ := by
  refine ⟨rfl, rfl, rfl⟩

/-- C4 amended: on the short-circuit and extraction-failure paths the
planner unconditionally produces `needs_rag=False` with no query and no
filter; on the extraction-success path it passes the extractor's
`needs_rag` and `rag_query` through unchanged, so the shape invariant
`needs_rag=False → no query ∧ no filter` holds exactly when the extraction
output itself satisfies it. -/
theorem planner_decision_shape_amended (state : GraphState)
    (extract : Except Unit RAGQueryOutput)
    (h : ∀ r, extract = .ok r → r.needs_rag = false →
      r.rag_query = none ∧ r.metadata_filters = none) :
    (context_rag_query_node state extract).1.needs_rag = false →
      (context_rag_query_node state extract).1.rag_query = none ∧
      (context_rag_query_node state extract).1.metadata_filters = none := by
  unfold context_rag_query_node
  cases hk : state.kundali_details with
  | none => intro _; simp [plannerSafeDefault]
  | some kd =>
    cases hp : state.user_profile with
    | none => intro _; simp [plannerSafeDefault]
    | some up =>
      cases hx : extract with
      | error e => intro _; simp [plannerSafeDefault]
      | ok r =>
          intro hfalse
          simp only at hfalse
          obtain ⟨hq, hm⟩ := h r hx hfalse
          simp [hq, hm, processFilters]

/-- C4 witness for the amended claim: a well-shaped no-retrieval extraction
output leads to a planner state with no query and no filter. -/
theorem planner_decision_shape_amended_witness :
    (context_rag_query_node sampleState (.ok noRagOutput)).1.needs_rag = false ∧
    (context_rag_query_node sampleState (.ok noRagOutput)).1.rag_query = none ∧
    (context_rag_query_node sampleState (.ok noRagOutput)).1.metadata_filters = none := by
  have h := planner_decision_shape_amended sampleState (.ok noRagOutput)
    (by intro r hr; injection hr with hr; subst hr; intro _; exact ⟨rfl, rfl⟩) rfl
  exact ⟨rfl, h.1, h.2⟩

/-! ## C6 — composer fallback (code bug) -/

/-- C6: the fallback-apology path of `chat_node` is unreachable whenever a
user profile is present, because the language lookup
`user_profile.preferred_language` (`app/nodes.py` line 386) runs **before**
the `try` guarding the generation call and raises `AttributeError` — the
pydantic `UserProfile` declares `preffered_language` (`app/models.py` line
18).  At the concrete failing input (a state whose profile requests Hindi
and a generation call that raises) the node propagates the exception
instead of appending the Hindi apology; it propagates even when generation
succeeds. -/
theorem chat_node_language_attribute_error :
    chat_node { sampleState with user_profile := some hindiProfile } (.error ()) =
      .error () ∧
    chat_node { sampleState with user_profile := some hindiProfile }
      (.ok "आपका सूर्य मकर राशि में है।") = .error () ∧
    chat_node { sampleState with user_profile := none } (.error ()) =
      .ok { sampleState with
              user_profile := none
              messages := sampleState.messages ++ [.ai englishFallback] } :=
  ⟨rfl, rfl, rfl⟩

/-! ## C9 — turn-handler result shape (code bug) -/

/-- C9: the chat endpoint constructs `ChatResponse` with exactly the
keyword arguments the spec's `handle_turn` shape names, but the declared
`ChatResponse` model (`app/models.py` lines 56–62) requires `zodiac_sign`
and declares none of `sun_sign`, `moon_sign`, `ascendant_sign`,
`dasha_info`; pydantic therefore reports the required field `zodiac_sign`
missing and every completed turn ends in a `ValidationError` (turned into
HTTP 500 by the outer handler) instead of the declared response record. -/
theorem chat_response_missing_required_field :
    pydanticMissingRequired chatResponseDeclaredFields routerChatResponseKwargs =
      ["zodiac_sign"] ∧
    routerChatResponseKwargs = specChatResponseFields ∧
    pydanticMissingRequired specChatResponseFields routerChatResponseKwargs = [] := by
  refine ⟨by decide, rfl, by decide⟩

/-! ## C3 — retriever degradation on index failure -/

/-- C3 counterexample: with planner-derived context keys in the state and
an index that raises, the retriever leaves `rag_context_keys` untouched
(the `except` branch of `retrieval_node`, `app/nodes.py` lines 353–355,
resets only `rag_results`), so the pair is `([], plannerKeys)`, not
`([], [])`, and the turn's outward `context_used` is non-empty. -/
theorem retriever_exception_context_keys_counterexample :
    (retrieval_node stateAfterPlanner (some failingQueryFn)).rag_results = [] ∧
    (retrieval_node stateAfterPlanner (some failingQueryFn)).rag_context_keys =
      ["zodiacs:Capricorn"] ∧
    ["zodiacs:Capricorn"] ≠ ([] : List String) := by
  refine ⟨rfl, rfl, by decide⟩

/-- C3 amended: if the index query function raises, `retrieval_node`
catches the exception (the embedding is total — nothing propagates) and
returns the state with empty `rag_results`; every other field, including
the planner-derived `rag_context_keys` (hence the turn's `context_used`),
is left unchanged. -/
theorem retriever_degrades_on_exception (state : GraphState) (qf : QueryFn)
    (hfail : qf (state.rag_query.getD "") 5 (buildWhereClause state.metadata_filters) =
      .error ()) :
    retrieval_node state (some qf) = { state with rag_results := [] } := by
  unfold retrieval_node
  split
  · rfl
  · simp only [hfail]

/-- C3 witness for the amended claim: the concrete always-raising index
yields exactly the input state with `rag_results` emptied. -/
theorem retriever_degrades_on_exception_witness :
    retrieval_node stateAfterPlanner (some failingQueryFn) =
      { stateAfterPlanner with rag_results := [] } :=
  retriever_degrades_on_exception stateAfterPlanner failingQueryFn rfl

/-! ## C7 — filter-to-query translation -/

/-- The sequential condition building of `retrieval_node` agrees with the
spec-side list of non-empty categories. -/
theorem buildConditions_eq_nonemptyCategories (mf : Option FilterDict) :
    buildConditions mf = nonemptyCategories mf := by
  cases mf with
  | none => rfl
  | some fd =>
      rcases fd with ⟨z, p, l, n⟩
      rcases z with _ | (_ | ⟨zv, zt⟩) <;>
        rcases p with _ | (_ | ⟨pv, pt⟩) <;>
        rcases l with _ | (_ | ⟨lv, lt⟩) <;>
        rcases n with _ | (_ | ⟨nv, nt⟩) <;>
        simp [buildConditions, nonemptyCategories, filterDictTruthy, optListTruthy]

/-- C7: each non-empty category of the metadata filter becomes one `$in`
condition; with no non-empty category the index is queried without a
metadata condition, with exactly one the condition is the whole clause,
with two or more the conditions are wrapped in `$or`; any produced clause
is satisfied by a document precisely when **some** condition matches it
(disjunction), and is never an `$and`. -/
theorem where_clause_translation (mf : Option FilterDict) :
    (nonemptyCategories mf = [] → buildWhereClause mf = none) ∧
    (∀ c, nonemptyCategories mf = [c] →
        buildWhereClause mf = some (.inCond c.1 c.2)) ∧
    (2 ≤ (nonemptyCategories mf).length →
        buildWhereClause mf = some (.orExpr (nonemptyCategories mf))) ∧
    (∀ w, buildWhereClause mf = some w →
        (∀ m, w.satisfiedBy m = (nonemptyCategories mf).any (inCondHolds m)) ∧
        ∀ cs, w ≠ .andExpr cs) := by
  have hbc := buildConditions_eq_nonemptyCategories mf
  refine ⟨?_, ?_, ?_, ?_⟩
  · intro h
    unfold buildWhereClause
    rw [hbc, h]
  · intro c h
    unfold buildWhereClause
    rw [hbc, h]
  · intro h
    unfold buildWhereClause
    rw [hbc]
    rcases hn : nonemptyCategories mf with _ | ⟨c1, _ | ⟨c2, cs⟩⟩ <;>
      simp_all
  · intro w hw
    unfold buildWhereClause at hw
    rw [hbc] at hw
    rcases hn : nonemptyCategories mf with _ | ⟨c1, _ | ⟨c2, cs⟩⟩ <;>
      rw [hn] at hw
    · exact absurd hw (by simp)
    · simp only [Option.some.injEq] at hw
      subst hw
      exact ⟨fun m => by simp [WhereExpr.satisfiedBy], fun cs => by simp⟩
    · simp only [Option.some.injEq] at hw
      subst hw
      exact ⟨fun m => by simp [WhereExpr.satisfiedBy], fun cs => by simp⟩

/-- C7 witness (spec Scenario C): `planetary_factors=["Sun"]` and
`life_areas=["career"]` produce an `$or`-combined condition over both
categories. -/
theorem where_clause_translation_witness :
    nonemptyCategories scenarioCFilter =
      [("planetary_factors", ["Sun"]), ("life_areas", ["career"])] ∧
    buildWhereClause scenarioCFilter =
      some (.orExpr [("planetary_factors", ["Sun"]), ("life_areas", ["career"])]) := by
  have h := (where_clause_translation scenarioCFilter).2.2.1 (by decide)
  exact ⟨by decide, by rw [h]; decide⟩

/-! ## C1 — zodiac-filter invariant -/

/-- Soundness of the zodiac-validation branch: a produced zodiac entry is a
non-empty sublist of the native signs, and an empty intersection produces
no entry at all. -/
theorem zodiacFilterResult_sound (native_zodiacs : List String)
    (candidates : Option (List String)) :
    (∀ zs, (zodiacFilterResult native_zodiacs candidates).2 = some zs →
        zs ≠ [] ∧ ∀ z ∈ zs, z ∈ native_zodiacs) ∧
    (validZodiacs native_zodiacs candidates = [] →
        (zodiacFilterResult native_zodiacs candidates).2 = none) := by
  unfold zodiacFilterResult
  by_cases ht : optListTruthy candidates
  · rw [if_pos ht]
    by_cases hv : validZodiacs native_zodiacs candidates ≠ []
    · rw [if_pos hv]
      constructor
      · intro zs hzs
        simp only [Option.some.injEq] at hzs
        subst hzs
        refine ⟨hv, fun z hz => ?_⟩
        simp only [validZodiacs] at hz
        have hcontains := (List.mem_filter.mp hz).2
        exact List.elem_iff.mp (by simpa [List.contains] using hcontains)
      · intro h
        exact absurd h hv
    · rw [if_neg hv]
      exact ⟨fun zs hzs => by simp at hzs, fun _ => rfl⟩
  · rw [if_neg ht]
    exact ⟨fun zs hzs => by simp at hzs, fun _ => rfl⟩

/-- C1: every zodiac value in a metadata filter produced by the planner
equals the session chart's Sun, Moon or Ascendant sign (after the
`or "Unknown"` defaulting the node applies); the surviving list is
non-empty, and when the intersection of the candidate zodiacs with the
native set is empty the zodiac category is omitted from the filter.  The
planner output is exactly what the conditional edge hands to
`retrieval_node`, so no violating filter reaches the retriever. -/
theorem planner_zodiac_filter_invariant (state : GraphState)
    (extract : Except Unit RAGQueryOutput) (kd : KundaliDetails)
    (hkd : state.kundali_details = some kd) :
    (∀ fd zs,
        (context_rag_query_node state extract).1.metadata_filters = some fd →
        fd.zodiacs = some zs →
        zs ≠ [] ∧ ∀ z ∈ zs,
          z = orUnknown kd.key_positions.sun.sign ∨
          z = orUnknown kd.key_positions.moon.sign ∨
          z = orUnknown kd.key_positions.ascendant.sign) ∧
    (∀ r mf fd, extract = .ok r → r.metadata_filters = some mf →
        validZodiacs
          [orUnknown kd.key_positions.sun.sign, orUnknown kd.key_positions.moon.sign,
           orUnknown kd.key_positions.ascendant.sign] mf.zodiacs = [] →
        (context_rag_query_node state extract).1.metadata_filters = some fd →
        fd.zodiacs = none) := by
  unfold context_rag_query_node
  rw [hkd]
  cases hp : state.user_profile with
  | none =>
      refine ⟨fun fd zs hfd => ?_, fun r mf fd hx hmf hfil hfd => ?_⟩ <;>
        simp [plannerSafeDefault] at hfd
  | some up =>
      cases hx : extract with
      | error e =>
          refine ⟨fun fd zs hfd => ?_, fun r mf fd hx' hmf hfil hfd => ?_⟩ <;>
            simp [plannerSafeDefault] at hfd
      | ok r =>
          constructor
          · intro fd zs hfd hzs
            simp only at hfd
            cases hmf : r.metadata_filters with
            | none => rw [hmf] at hfd; simp [processFilters] at hfd
            | some mf =>
                rw [hmf] at hfd
                simp only [processFilters, Option.some.injEq] at hfd
                subst hfd
                simp only at hzs
                have := (zodiacFilterResult_sound
                  [orUnknown kd.key_positions.sun.sign,
                   orUnknown kd.key_positions.moon.sign,
                   orUnknown kd.key_positions.ascendant.sign] mf.zodiacs).1 zs hzs
                refine ⟨this.1, fun z hz => ?_⟩
                have hmem := this.2 z hz
                simpa using hmem
          · intro r' mf fd hx' hmf hfil hfd
            injection hx' with hx'
            subst hx'
            simp only at hfd
            rw [hmf] at hfd
            simp only [processFilters, Option.some.injEq] at hfd
            subst hfd
            simp only
            exact (zodiacFilterResult_sound _ mf.zodiacs).2 hfil

/-- C1 witness (spec Scenario B): the extraction step proposes
`zodiacs=["Scorpio","Leo"]` for the Capricorn/Leo/Aries native; the
produced filter keeps exactly `["Leo"]`, and each survivor is one of the
native signs. -/
theorem planner_zodiac_filter_invariant_witness :
    (context_rag_query_node sampleState (.ok scorpioOutput)).1.metadata_filters =
      some ⟨some ["Leo"], none, none, none⟩ ∧
    (["Leo"] ≠ [] ∧ ∀ z ∈ ["Leo"],
      z = orUnknown sampleKundali.key_positions.sun.sign ∨
      z = orUnknown sampleKundali.key_positions.moon.sign ∨
      z = orUnknown sampleKundali.key_positions.ascendant.sign) :=
  ⟨rfl,
   (planner_zodiac_filter_invariant sampleState (.ok scorpioOutput) sampleKundali
      rfl).1 ⟨some ["Leo"], none, none, none⟩ ["Leo"] rfl rfl⟩

/-! ## C8 — current dasa/bhukti selection -/

/-- C8: (i) `parse_dasha_date` uses day-month-year as the primary format
and year-month-day only as the fallback; (ii) an empty or fully
non-matching timeline (including periods whose dates fail to parse, which
`periodContains` rejects) reports `"Not available"`; (iii) the first major
period in iteration order whose `[start, end]` interval contains today is
reported, with no sorting — everything before it must fail the containment
test; (iv) within the current period the first sub-period containing today
is appended, and (v) none matching leaves the major period alone. -/
theorem dasha_current_period_selection (vd : List (String × DasaDetails))
    (today : Date) :
    (∀ s d, parseDMY s = .ok d → parse_dasha_date s = .ok d) ∧
    (∀ s, parseDMY s = .error () → parse_dasha_date s = parseYMD s) ∧
    (vd.find? (fun p => periodContains today p.2.start p.2.stop) = none →
        extract_dasha_info vd today = "Not available") ∧
    (∀ pre name dd post,
        vd = pre ++ (name, dd) :: post →
        (∀ p ∈ pre, periodContains today p.2.start p.2.stop = false) →
        periodContains today dd.start dd.stop = true →
        extract_dasha_info vd today = formatCurrentDasa today name dd) ∧
    (∀ name dd bpre bn bd bpost,
        dd.bhuktis = bpre ++ (bn, bd) :: bpost →
        (∀ b ∈ bpre, periodContains today b.2.start b.2.stop = false) →
        periodContains today bd.start bd.stop = true →
        formatCurrentDasa today name dd =
          name ++ " (" ++ dd.start ++ " to " ++ dd.stop ++ ")" ++
            " - Current Bhukti: " ++ bn ++ " (" ++ bd.start ++ " to " ++
            bd.stop ++ ")") ∧
    (∀ name dd,
        dd.bhuktis.find? (fun b => periodContains today b.2.start b.2.stop) = none →
        formatCurrentDasa today name dd =
          name ++ " (" ++ dd.start ++ " to " ++ dd.stop ++ ")") := by
  refine ⟨?_, ?_, ?_, ?_, ?_, ?_⟩
  · intro s d h
    unfold parse_dasha_date
    rw [h]
  · intro s h
    unfold parse_dasha_date
    rw [h]
  · intro h
    unfold extract_dasha_info
    rw [h]
  · intro pre name dd post hvd hpre hdd
    unfold extract_dasha_info
    rw [hvd, find?_of_prefix_failures _ pre post (name, dd) hpre hdd]
  · intro name dd bpre bn bd bpost hb hpre hbd
    unfold formatCurrentDasa
    rw [hb, find?_of_prefix_failures _ bpre bpost (bn, bd) hpre hbd]
  · intro name dd h
    unfold formatCurrentDasa
    rw [h]

/-- C8 witness (spec Scenario E): on 2020-03-15 the sample timeline's
first period (Mercury) does not contain today, the Ketu period does, and
its first bhukti Ketu-Ketu does; the primary day-month-year format parses
the boundaries; an empty timeline yields `"Not available"`. -/
theorem dasha_current_period_selection_witness :
    parse_dasha_date "01-06-2020" = .ok ⟨2020, 6, 1⟩ ∧
    extract_dasha_info sampleDasaTimeline sampleToday =
      "Ketu (01-01-2020 to 01-01-2027) - Current Bhukti: Ketu-Ketu (01-01-2020 to 01-06-2020)" ∧
    extract_dasha_info [] sampleToday = "Not available" := by
  have h := dasha_current_period_selection sampleDasaTimeline sampleToday
  have h0 := dasha_current_period_selection ([] : List (String × DasaDetails)) sampleToday
  refine ⟨h.1 "01-06-2020" ⟨2020, 6, 1⟩ rfl, ?_, h0.2.2.1 rfl⟩
  rw [h.2.2.2.1 [("Mercury", ⟨"01-01-2000", "01-01-2017", []⟩)] "Ketu"
        ⟨"01-01-2020", "01-01-2027",
          [("Ketu-Ketu", ⟨"01-01-2020", "01-06-2020"⟩),
           ("Ketu-Venus", ⟨"01-06-2020", "01-08-2021"⟩)]⟩ [] rfl
        (by decide) (by decide),
      h.2.2.2.2.1 "Ketu"
        ⟨"01-01-2020", "01-01-2027",
          [("Ketu-Ketu", ⟨"01-01-2020", "01-06-2020"⟩),
           ("Ketu-Venus", ⟨"01-06-2020", "01-08-2021"⟩)]⟩ []
        "Ketu-Ketu" ⟨"01-01-2020", "01-06-2020"⟩
        [("Ketu-Venus", ⟨"01-06-2020", "01-08-2021"⟩)] rfl
        (by decide) (by decide)]
  rfl

/-! ## C2 — exactly-once chart computation per session -/

/-- After any turn, the checkpoint store holds channel values for the
session whose `kundali_details` is exactly the chart that turn used (the
graph nodes never overwrite the chart, and LangGraph persists the channel
values keyed by the thread id). -/
theorem chat_handler_persists_chart (store : CheckpointStore) (req : ChatRequest)
    (fetchChart : KundaliDetails) (e : Except Unit RAGQueryOutput)
    (q : Option QueryFn) (g : Except Unit String) :
    ((chat_handler store req fetchChart e q g).store.aget req.session_id).bind
        (fun cv => cv.kundali_details) =
      some (chat_handler store req fetchChart e q g).chart := by
  unfold chat_handler
  simp only [CheckpointStore.put, CheckpointStore.aget, List.lookup, beq_self_eq_true,
    Option.some_bind]
  rw [run_graph_preserves_kundali]
  cases hcp : List.lookup req.session_id store with
  | none => simp [hcp]
  | some prev => simp [hcp]

/-- C2: two sequential calls of the chat endpoint with the same session id
invoke the chart computation at most once — the second call finds the
chart in the per-session checkpoint state, does not invoke
`fetch_kundali_details` (even with a different chart oracle available),
and uses the identical chart value; on a fresh session the first call is
the one that fetches. -/
theorem chart_computed_at_most_once (store : CheckpointStore)
    (req1 req2 : ChatRequest) (hsid : req2.session_id = req1.session_id)
    (chart1 chart2 : KundaliDetails)
    (e1 e2 : Except Unit RAGQueryOutput) (q1 q2 : Option QueryFn)
    (g1 g2 : Except Unit String) :
    (chat_handler (chat_handler store req1 chart1 e1 q1 g1).store
        req2 chart2 e2 q2 g2).fetched = false ∧
    (chat_handler (chat_handler store req1 chart1 e1 q1 g1).store
        req2 chart2 e2 q2 g2).chart =
      (chat_handler store req1 chart1 e1 q1 g1).chart ∧
    (store.aget req1.session_id = none →
      (chat_handler store req1 chart1 e1 q1 g1).fetched = true ∧
      (chat_handler store req1 chart1 e1 q1 g1).chart = chart1) := by
  have hper := chat_handler_persists_chart store req1 chart1 e1 q1 g1
  refine ⟨?_, ?_, ?_⟩
  · conv_lhs => rw [chat_handler]
    simp only [hsid]
    cases hcp : (chat_handler store req1 chart1 e1 q1 g1).store.aget req1.session_id with
    | none => rw [hcp] at hper; simp at hper
    | some prev =>
        rw [hcp] at hper
        simp only [Option.some_bind] at hper
        simp [hper]
  · conv_lhs => rw [chat_handler]
    simp only [hsid]
    cases hcp : (chat_handler store req1 chart1 e1 q1 g1).store.aget req1.session_id with
    | none => rw [hcp] at hper; simp at hper
    | some prev =>
        rw [hcp] at hper
        simp only [Option.some_bind] at hper
        simp [hper]
  · intro hempty
    unfold chat_handler
    simp only [CheckpointStore.aget] at hempty
    constructor <;> simp [CheckpointStore.aget, hempty]

/-- C2 witness: on an empty store, the first turn fetches the chart; the
second turn (same session id, different message, different chart oracle)
does not fetch and uses the chart from the first turn. -/
theorem chart_computed_at_most_once_witness :
    (chat_handler (chat_handler [] sampleRequest sampleKundali
        (.error ()) none (.error ())).store
      sampleRequest2 otherKundali (.error ()) none (.error ())).fetched = false ∧
    (chat_handler (chat_handler [] sampleRequest sampleKundali
        (.error ()) none (.error ())).store
      sampleRequest2 otherKundali (.error ()) none (.error ())).chart =
      (chat_handler [] sampleRequest sampleKundali (.error ()) none (.error ())).chart ∧
    ((CheckpointStore.aget [] sampleRequest.session_id = none) →
      (chat_handler [] sampleRequest sampleKundali (.error ()) none (.error ())).fetched
        = true ∧
      (chat_handler [] sampleRequest sampleKundali (.error ()) none (.error ())).chart
        = sampleKundali) :=
  chart_computed_at_most_once [] sampleRequest sampleRequest2 rfl sampleKundali
    otherKundali (.error ()) (.error ()) none none (.error ()) (.error ())

end AstroChat
